import Mathlib

/-!
Verification of the `judges` library (LLM-as-judge evaluation toolkit).

Shallow embedding of the Python sources:
* `judges/base.py` — `Judgment` score normalization, `BaseJudge._build_messages`,
  `Jury.vote`;
* `judges/voting_methods.py` — `_normalize_score`, `majority_voting`;
* `judges/config.py` — `ClientConfig`, `configure_client`, `get_config`;
* `judges/_client.py` — `get_completion` retry policy;
* `judges/autojudge/core.py` — `GradingNoteProcessor.aggregate_feedback`,
  `run_pipeline`, `process_single_response`, `extract_classifications`;
* `judges/autojudge/engine/llm_engine.py` — `GradingNote`;
* `judges/autojudge/metrics/compute_metrics.py` — `ComputeMetrics`.

Python floats are modelled by `ℚ` (all arithmetic in the verified claims is
exact), machine integers by `Int`, raised exceptions by `Except`.
-/

namespace Judges

/-- Kinds of runtime errors raised by the embedded Python code.  Python
distinguishes these by exception class; the message texts are irrelevant to
the claims. -/
inductive PyErr where
  | typeError       -- e.g. calling a function without a required argument
  | valueError      -- e.g. `raise ValueError(...)`, failed float()/int() conversion
  | validationError -- pydantic model constructed with required fields missing
  | runtimeError    -- any other exception (stands in for provider/network errors)
  | zeroDivisionError -- integer division by zero
  deriving DecidableEq, Repr

/-- A Python value that can appear in `Judgment.score` (declared
`bool | int | str` in `judges/base.py`).  Python `bool` is a subclass of
`int`; the embedding keeps them separate and treats the `.bool` case by the
source's `isinstance(score, int)` branch where relevant. -/
inductive PyVal where
  | bool (b : Bool)
  | int (n : Int)
  | str (s : String)
  deriving DecidableEq, Repr

/-- Python `str.lower()`.  `Char.toLower` agrees with Python on ASCII
strings, which covers every string the verified claims quantify over. -/
def pyLower (s : String) : String := ⟨s.data.map Char.toLower⟩

/-- The value of a nonempty all-digit character list, read in base 10. -/
def digitsVal? : List Char → Option Nat
  | [] => none
  | cs =>
      if cs.all (fun c => c.isDigit) then
        some (cs.foldl (fun acc c => 10 * acc + (c.toNat - 48)) 0)
      else none

/-- Python `int(s)` for a plain decimal string literal with an optional
sign: the digits of `s`, or `none` (a `ValueError`) when `s` is not such a
literal.  (Python additionally strips whitespace and allows underscore
separators; no verified claim uses those forms.) -/
def pyParseInt (s : String) : Option Int :=
  match s.data with
  | '-' :: rest => (digitsVal? rest).map (fun n => -(n : Int))
  | '+' :: rest => (digitsVal? rest).map (fun n => (n : Int))
  | cs => (digitsVal? cs).map (fun n => (n : Int))

/-- The truthy score vocabulary checked by `Judgment.__post_init__` and
`_normalize_score` (`judges/base.py` line 40, `voting_methods.py` line 8). -/
def trueStrings : List String := ["yes", "true", "1", "good"]

/-- The falsy score vocabulary (`judges/base.py` line 42,
`voting_methods.py` line 10). -/
def falseStrings : List String := ["no", "false", "0", "bad"]

/-- `Judgment.__post_init__` (`judges/base.py` lines 35-45): a string score
whose lowercase form is in the truthy vocabulary becomes `True`, in the falsy
vocabulary becomes `False`, any other string is left unchanged; an integer
score is replaced by `bool(score)`.  A Python `bool` score also takes the
`isinstance(score, int)` branch (`bool` is a subclass of `int`), and
`bool(b) = b`. -/
def postInitScore : PyVal → PyVal
  | .str s =>
      if pyLower s ∈ trueStrings then .bool true
      else if pyLower s ∈ falseStrings then .bool false
      else .str s
  | .int n => .bool (n ≠ 0)
  | .bool b => .bool b

/-- A `Judgment` (`judges/base.py` lines 19-45): the stored score is the
normalized one. -/
structure Judgment where
  score : PyVal
  reasoning : String
  deriving DecidableEq, Repr

/-- Constructing `Judgment(score=..., reasoning=...)` runs
`__post_init__`. -/
def mkJudgment (score : PyVal) (reasoning : String) : Judgment :=
  ⟨postInitScore score, reasoning⟩

/-! ## `BaseJudge._build_messages` (`judges/base.py` lines 91-117) -/

/-- One chat message. -/
structure Message where
  role : String
  content : String
  deriving DecidableEq, Repr

/-- The fixed JSON-format instruction appended to the user prompt
(`judges/base.py` lines 112-114). -/
def jsonFormatInstruction : String :=
  "Respond in JSON format. \x7b\"REASONING\": \"[...]\", \"SCORE\": \"<your-score>\"\x7d"

/-- Python truthiness of an `Optional[str]`: `None` and `""` are falsy. -/
def strTruthy : Option String → Bool
  | none => false
  | some s => s ≠ ""

/-- `BaseJudge._build_messages(user_prompt, system_prompt=None)`
(`judges/base.py` lines 91-117): a system message is prepended only when
`system_prompt` is truthy (`if system_prompt:`), then the user message with
the JSON instruction appended to its content. -/
def buildMessages (user_prompt : String) (system_prompt : Option String) :
    List Message :=
  (if strTruthy system_prompt then
      [⟨"system", system_prompt.getD ""⟩]
    else []) ++
  [⟨"user", user_prompt ++ jsonFormatInstruction⟩]

/-! ## Client configuration (`judges/config.py`) -/

/-- The process-wide `ClientConfig` dataclass (`judges/config.py`
lines 5-9). -/
structure ClientConfig where
  client : String
  api_key : Option String
  base_url : Option String
  deriving DecidableEq, Repr

/-- `configure_client(client='litellm', api_key=None, base_url=None)`
(`judges/config.py` lines 14-32).  Each argument is stored exactly when the
bound value is not `None`; the function mutates the module singleton and
returns it, so the returned value and the configuration that `get_config()`
subsequently reads are the same — the embedding passes the singleton state
explicitly and returns the new state. -/
def configure_client (client : Option String) (api_key : Option String)
    (base_url : Option String) (cfg : ClientConfig) : ClientConfig :=
  let cfg := match client with
    | some c => { cfg with client := c }
    | none => cfg
  let cfg := match api_key with
    | some k => { cfg with api_key := some k }
    | none => cfg
  match base_url with
  | some u => { cfg with base_url := some u }
  | none => cfg

/-- A Python call of `configure_client` that omits the `client` parameter
binds it to its declared default `"litellm"` — the call
`configure_client(api_key=..., base_url=...)` in the source semantics. -/
def configure_client_default_client (api_key : Option String)
    (base_url : Option String) (cfg : ClientConfig) : ClientConfig :=
  configure_client (some "litellm") api_key base_url cfg

/-! ## Voting methods (`judges/voting_methods.py`) -/

/-- Python `float(x)` on the score values that can occur here:
`float(True) = 1.0`, `float(False) = 0.0`, an `int` converts exactly, and a
string parses as a number or raises `ValueError` (integer literals suffice
for the verified claims; fractional literals never occur in them). -/
def pyFloat : PyVal → Except PyErr ℚ
  | .bool b => .ok (if b then 1 else 0)
  | .int n => .ok (n : ℚ)
  | .str s =>
      match pyParseInt s with
      | some n => .ok (n : ℚ)
      | none => .error .valueError

/-- `_normalize_score(score, score_type)` (`voting_methods.py` lines 4-25).
The `"likert"` branch is omitted: no verified claim reaches it, and every
call site in the claims passes `"boolean"`.  For `"boolean"`, a string score
in the truthy vocabulary maps to `1.0`, in the falsy vocabulary to `0.0`,
and any other value falls through to `float(score)`; every other score type
used here is a direct `float(score)` conversion. -/
def normalize_score (score : PyVal) (score_type : String) : Except PyErr ℚ :=
  if score_type = "boolean" then
    match score with
    | .str s =>
        if pyLower s ∈ trueStrings then .ok 1
        else if pyLower s ∈ falseStrings then .ok 0
        else pyFloat score
    | v => pyFloat v
  else pyFloat score

/-- Normalize a zipped `(score, score_type)` list, propagating the first
conversion error — the Python list comprehension
`[_normalize_score(s, t) for s, t in zip(scores, score_types)]`. -/
def normalizeAll : List (PyVal × String) → Except PyErr (List ℚ)
  | [] => .ok []
  | (s, t) :: rest =>
      match normalize_score s t with
      | .error e => .error e
      | .ok q =>
          match normalizeAll rest with
          | .error e => .error e
          | .ok qs => .ok (q :: qs)

/-- The distinct elements of a list in first-occurrence order. -/
def firstOccs : List ℚ → List ℚ
  | [] => []
  | x :: xs => x :: firstOccs (xs.filter (fun y => y ≠ x))
termination_by l => l.length
decreasing_by
  simp only [List.length_cons]
  exact Nat.lt_succ_of_le (List.length_filter_le _ _)

/-- `statistics.mode(data)` (Python ≥ 3.8): the most common value, ties
broken by first occurrence in the data; raises on an empty list (modelled as
`none`). -/
def pyMode (l : List ℚ) : Option ℚ :=
  (firstOccs l).foldl
    (fun best v =>
      match best with
      | none => some v
      | some b => if l.count v > l.count b then some v else best)
    none

/-- `sum(xs) / len(xs) if xs else 0.0` — the fallback average used by
`majority_voting`. -/
def listAvgOrZero (l : List ℚ) : ℚ :=
  if l = [] then 0 else l.sum / l.length

/-- The aggregate value a voting method returns
(`Union[float, bool]`). -/
inductive VoteValue where
  | bool (b : Bool)
  | float (q : ℚ)
  deriving DecidableEq, Repr

/-- `majority_voting(scores, score_types)` (`voting_methods.py`
lines 47-62): normalize the zipped scores; take `statistics.mode`, falling
back to the average (or `0.0` on an empty list) when `mode` raises; if every
score type is `"boolean"`, re-threshold the result at `> 0.5` into a
boolean, otherwise return the number. -/
def majority_voting (scores : List PyVal) (score_types : List String) :
    Except PyErr VoteValue :=
  match normalizeAll (scores.zip score_types) with
  | .error e => .error e
  | .ok ns =>
      let vote := match pyMode ns with
        | some m => m
        | none => listAvgOrZero ns
      if score_types.all (fun t => t = "boolean") then
        .ok (.bool (vote > 1/2))
      else
        .ok (.float vote)

/-- Python call semantics for `majority_voting` invoked with the single
keyword argument `scores` (`score_types = none` below): `score_types` has no
default value in its signature (`voting_methods.py` line 47), so the call
raises `TypeError` before the body runs. -/
def call_majority_voting (scores : List PyVal)
    (score_types : Option (List String)) : Except PyErr VoteValue :=
  match score_types with
  | none => .error .typeError
  | some ts => majority_voting scores ts

/-! ## Jury (`judges/base.py` lines 178-251) -/

/-- The argument triple of `judge(input, output, expected)`. -/
structure JudgeInput where
  input : String
  output : Option String
  expected : Option String
  deriving DecidableEq, Repr

/-- A concrete judge, abstracted to its `judge` method (each member of a
jury is called as `judge.judge(input=..., output=..., expected=...)`). -/
def JudgeFn : Type := JudgeInput → Judgment

/-- A `Verdict` (`judges/base.py` lines 48-62). -/
structure Verdict where
  score : VoteValue
  judgments : List Judgment
  deriving DecidableEq, Repr

/-- `Jury(judges, voting_method="majority").vote(input, output, expected)`
(`judges/base.py` lines 215-250): `Jury.__init__` resolves
`AVAILABLE_VOTING_METHODS["majority"] = majority_voting`; `vote` collects
one judgment per judge in list order, extracts their scores, and calls the
resolved voting method as `self.voting_method(scores=scores)` — with no
`score_types` argument. -/
def juryVoteMajority (judges : List JudgeFn) (arg : JudgeInput) :
    Except PyErr Verdict :=
  let judgments := judges.map (fun j => j arg)
  let scores := judgments.map (fun j => j.score)
  match call_majority_voting scores none with
  | .error e => .error e
  | .ok score => .ok ⟨score, judgments⟩

/-! ## Gateway retry policy (`judges/_client.py` lines 23-35)

`get_completion` is decorated with
`@retry(wait=wait_random_exponential(min=1, max=60), stop=stop_after_attempt(5))`.
The tenacity combinator's documented semantics: run the wrapped call; on an
exception, sleep a randomized exponential backoff (clamped to the decorator's
`min`/`max` seconds) and try again, until the stop condition — here, 5
attempts — after which the last exception is re-raised.  The attempt/result
behaviour is embedded below; the real-time length of each sleep is not
modelled, only the decorator's recorded wait bounds. -/

/-- The backoff and stop parameters of a tenacity `@retry` decoration. -/
structure RetryPolicy where
  waitMin : ℚ
  waitMax : ℚ
  maxAttempts : Nat
  deriving DecidableEq, Repr

/-- The policy `get_completion` is decorated with:
`wait_random_exponential(min=1, max=60)`, `stop_after_attempt(5)`. -/
def getCompletionRetryPolicy : RetryPolicy :=
  { waitMin := 1, waitMax := 60, maxAttempts := 5 }

/-- Run attempts `k, k+1, ...` of `f` with `remaining` attempts left:
return the first success; when the last allowed attempt fails, return its
error. -/
def retryRun {E A : Type} (f : Nat → Except E A) :
    Nat → Nat → Except E A
  | 0, k => f k
  | remaining + 1, k =>
      match f k with
      | .ok a => .ok a
      | .error e => if remaining = 0 then .error e else retryRun f remaining (k + 1)

/-- `get_completion`, as a function of the outcome of each underlying
attempt (attempt numbers start at 1): the tenacity wrapper with the policy
above. -/
def getCompletionAttempts {E A : Type} (f : Nat → Except E A) : Except E A :=
  retryRun f getCompletionRetryPolicy.maxAttempts 1

/-! ## Auto-Judge engine schema (`judges/autojudge/engine/llm_engine.py`)

`llm_engine.py` lines 25-27 declare the pydantic model

    class GradingNote(BaseModel):
        SCORE: bool
        REASONING: str

This is the shape `core.py` imports and that `instructor` validates LLM
replies against. -/

/-- The `GradingNote` pydantic model exactly as defined in
`llm_engine.py`. -/
structure GradingNote where
  SCORE : Bool
  REASONING : String
  deriving DecidableEq, Repr

/-- A Python value passed as a pydantic keyword argument or read back as an
attribute. -/
inductive GNVal where
  | bool (b : Bool)
  | str (s : String)
  deriving DecidableEq, Repr

/-- Pydantic `BaseModel` construction from keyword arguments: each declared
field (`SCORE : bool`, `REASONING : str`) must be supplied with a value of
its type, otherwise construction raises a `ValidationError`; extra keyword
arguments are ignored under the default model configuration. -/
def mkGradingNote (kwargs : List (String × GNVal)) : Except PyErr GradingNote :=
  match (kwargs.lookup "SCORE"), (kwargs.lookup "REASONING") with
  | some (.bool b), some (.str r) => .ok ⟨b, r⟩
  | _, _ => .error .validationError

/-- Python attribute lookup on a `GradingNote` instance: the pydantic model
exposes exactly its declared fields `SCORE` and `REASONING`. -/
def gradingNoteAttr (g : GradingNote) (name : String) : Option GNVal :=
  if name = "SCORE" then some (.bool g.SCORE)
  else if name = "REASONING" then some (.str g.REASONING)
  else none

/-- `getattr(obj, name, default)`: the attribute when it exists, else the
default. -/
def gradingNoteGetattr (g : GradingNote) (name : String) (dflt : GNVal) :
    GNVal :=
  (gradingNoteAttr g name).getD dflt

/-- Python truthiness of the attribute values occurring here. -/
def gnTruthy : GNVal → Bool
  | .bool b => b
  | .str s => s ≠ ""

/-! ## Auto-Judge core (`judges/autojudge/core.py`) -/

/-- A label cell of a dataset row: CSV loading yields strings, an in-memory
dataset may carry integers; both are fed to Python `int(...)`. -/
inductive LabelV where
  | int (n : Int)
  | str (s : String)
  deriving DecidableEq, Repr

/-- Python `int(x)` on a label cell (raises `ValueError` on a
non-numeric string). -/
def pyIntOfLabel : LabelV → Except PyErr Int
  | .int n => .ok n
  | .str s =>
      match pyParseInt s with
      | some n => .ok n
      | none => .error .valueError

/-- One Auto-Judge dataset row, restricted to the fields the verified
claims touch.  `none` models an absent dictionary key. -/
structure Row where
  label : Option LabelV
  feedback : Option String
  completion : Option String
  input_text : Option String
  deriving DecidableEq, Repr

/-- `int(row.get('label', 0))` (`core.py` line 115). -/
def rowLabelInt (r : Row) : Except PyErr Int :=
  pyIntOfLabel (r.label.getD (.int 0))

/-- The list comprehension
`[row for row in self.data if int(row.get('label', 0)) == 0]`
(`core.py` line 115), propagating a conversion error at the first
non-numeric label, as Python would. -/
def badDataPoints : List Row → Except PyErr (List Row)
  | [] => .ok []
  | r :: rs =>
      match rowLabelInt r with
      | .error e => .error e
      | .ok n =>
          match badDataPoints rs with
          | .error e => .error e
          | .ok rest => .ok (if n = 0 then r :: rest else rest)

/-- `row.get('feedback')` truthiness: present and non-empty. -/
def rowFeedbackTruthy (r : Row) : Bool :=
  match r.feedback with
  | some f => f ≠ ""
  | none => false

/-- `GradingNoteProcessor.aggregate_feedback` (`core.py` lines 107-129):
collect the rows whose label converts to `0`; if there are none, return
`""`; otherwise return `' - ' + '\n - '.join(feedback of the bad rows whose
feedback is truthy)`. -/
def aggregate_feedback (data : List Row) : Except PyErr String :=
  match badDataPoints data with
  | .error e => .error e
  | .ok bad =>
      if bad.isEmpty then
        .ok ""
      else
        .ok (" - " ++ String.intercalate "\n - "
          ((bad.filter rowFeedbackTruthy).filterMap (fun r => r.feedback)))

/-- The pipeline prefix of `GradingNoteProcessor.run_pipeline`
(`core.py` lines 329-349): an empty dataset raises `ValueError`; then
`aggregate_feedback` runs, and execution continues to
`generate_structured_feedback` — the first LLM call of the pipeline —
exactly when the aggregated feedback is truthy (`if not aggregated_feedback:
return`).  The result is `true` iff an LLM call is issued. -/
def runPipelineIssuesLLMCall (data : List Row) : Except PyErr Bool :=
  if data.isEmpty then
    .error .valueError
  else
    match aggregate_feedback data with
    | .error e => .error e
    | .ok af => .ok (af ≠ "")

/-- `process_single_response(row)` (`core.py` lines 250-271), as a function
of the LLM-call outcome for the row (`llm`): an empty (or absent)
`completion` short-circuits to `GradingNote(Classification=False,
Explanation="No response provided for evaluation.")` without an LLM call;
otherwise the row's formatted grading note is sent to the engine, and any
exception from that call is caught and replaced by
`GradingNote(Classification=False, Explanation="LLM Error: Failed to
generate response.")`.  Both constructions go through pydantic
(`mkGradingNote`); the `Classification`/`Explanation` keywords do not
supply the declared `SCORE`/`REASONING` fields, so they raise — the first
outside any `try`, the second inside the `except` handler, where it also
propagates. -/
def process_single_response (llm : Row → Except PyErr GradingNote)
    (row : Row) : Except PyErr GradingNote :=
  let completion := row.completion.getD ""
  if completion = "" then
    mkGradingNote
      [("Classification", .bool false),
       ("Explanation", .str "No response provided for evaluation.")]
  else
    match llm row with
    | .ok g => .ok g
    | .error _ =>
        mkGradingNote
          [("Classification", .bool false),
           ("Explanation", .str "LLM Error: Failed to generate response.")]

/-- One step of `extract_classifications` (`core.py` lines 285-296):
`1 if getattr(eval_result, 'Classification', False) else 0`. -/
def classificationOf (g : GradingNote) : Nat :=
  if gnTruthy (gradingNoteGetattr g "Classification" (.bool false)) then 1
  else 0

/-! ## Metrics calculator (`judges/autojudge/metrics/compute_metrics.py`) -/

/-- Insert into a strictly sorted list, keeping it strictly sorted. -/
def insertSortedNoDup (x : Int) : List Int → List Int
  | [] => [x]
  | y :: ys =>
      if x < y then x :: y :: ys
      else if x = y then y :: ys
      else y :: insertSortedNoDup x ys

/-- `sorted(list(set(l)))`: the distinct elements of `l` in increasing
order. -/
def sortedClasses (l : List Int) : List Int :=
  l.foldr insertSortedNoDup []

/-- The `ComputeMetrics` object after successful construction
(`compute_metrics.py` lines 11-25): the two label sequences and
`self.classes = sorted(list(set(y_true) | set(y_pred)))`. -/
structure CMetrics where
  y_true : List Int
  y_pred : List Int
  classes : List Int
  deriving DecidableEq, Repr

/-- `ComputeMetrics(y_true, y_pred)` — raises `ValueError` when the lengths
differ (`compute_metrics.py` lines 19-20). -/
def mkComputeMetrics (y_true y_pred : List Int) : Except PyErr CMetrics :=
  if y_true.length ≠ y_pred.length then .error .valueError
  else .ok ⟨y_true, y_pred, sortedClasses (y_true ++ y_pred)⟩

/-- `self.confusion_matrix[a][b]`: the dict built by
`_build_confusion_matrix` (lines 27-37) increments entry `(true, pred)` once
per aligned pair, so the entry equals the count of `(a, b)` among
`zip(y_true, y_pred)`. -/
def confusion (cm : CMetrics) (a b : Int) : Nat :=
  (cm.y_true.zip cm.y_pred).count (a, b)

/-- The valid averaging modes. -/
def validAverages : List String := ["binary", "macro", "weighted"]

/-- Per-class precision `TP / (TP + FP)`, `0.0` when the denominator is `0`
(`compute_metrics.py` lines 66-68; `FP` is the column sum over the class
minus `TP`). -/
def classPrecision (cm : CMetrics) (cls : Int) : ℚ :=
  let TP : Nat := confusion cm cls cls
  let FP : Nat := (cm.classes.map (fun c => confusion cm c cls)).sum - TP
  if TP + FP = 0 then 0 else (TP : ℚ) / ((TP : ℚ) + (FP : ℚ))

/-- Per-class recall `TP / (TP + FN)`, `0.0` when the denominator is `0`
(`compute_metrics.py` lines 106-108; `FN` is the row sum over the class
minus `TP`). -/
def classRecall (cm : CMetrics) (cls : Int) : ℚ :=
  let TP : Nat := confusion cm cls cls
  let FN : Nat := (cm.classes.map (fun c => confusion cm cls c)).sum - TP
  if TP + FN = 0 then 0 else (TP : ℚ) / ((TP : ℚ) + (FN : ℚ))

/-- `self.y_true.count(cls)` — the weights of `'weighted'` averaging. -/
def trueCount (cm : CMetrics) (cls : Int) : Nat := cm.y_true.count cls

/-- `calculate_precision(average)` (`compute_metrics.py` lines 39-77):
an unrecognized mode raises `ValueError`; `'binary'` requires exactly two
classes and reports the precision of `self.classes[1]`; `'macro'` is the
unweighted mean over classes (Python divides by `len(self.classes)`,
raising `ZeroDivisionError` when there are no classes); `'weighted'`
weights each class by its true-label count, `0.0` when the total weight is
zero. -/
def calculate_precision (cm : CMetrics) (average : String) :
    Except PyErr ℚ :=
  if average ∉ validAverages then .error .valueError
  else if average = "binary" then
    match cm.classes with
    | [_, pos] => .ok (classPrecision cm pos)
    | _ => .error .valueError
  else
    let precisions := cm.classes.map (classPrecision cm)
    if average = "macro" then
      if cm.classes.length = 0 then .error .zeroDivisionError
      else .ok (precisions.sum / cm.classes.length)
    else
      let weights := cm.classes.map (trueCount cm)
      let total := weights.sum
      if total ≠ 0 then
        .ok (((precisions.zip weights).map
          (fun pw => pw.1 * (pw.2 : ℚ))).sum / (total : ℚ))
      else .ok 0

/-- `calculate_recall(average)` (`compute_metrics.py` lines 79-117),
mirroring `calculate_precision` with `FN` in place of `FP`. -/
def calculate_recall (cm : CMetrics) (average : String) :
    Except PyErr ℚ :=
  if average ∉ validAverages then .error .valueError
  else if average = "binary" then
    match cm.classes with
    | [_, pos] => .ok (classRecall cm pos)
    | _ => .error .valueError
  else
    let recalls := cm.classes.map (classRecall cm)
    if average = "macro" then
      if cm.classes.length = 0 then .error .zeroDivisionError
      else .ok (recalls.sum / cm.classes.length)
    else
      let weights := cm.classes.map (trueCount cm)
      let total := weights.sum
      if total ≠ 0 then
        .ok (((recalls.zip weights).map
          (fun rw => rw.1 * (rw.2 : ℚ))).sum / (total : ℚ))
      else .ok 0

/-- Per-class F1 `2·P·R/(P+R)`, `0.0` when `P+R = 0`. -/
def classF1 (cm : CMetrics) (cls : Int) : ℚ :=
  let p := classPrecision cm cls
  let r := classRecall cm cls
  if p + r = 0 then 0 else 2 * p * r / (p + r)

/-- `calculate_f1(average)` (`compute_metrics.py` lines 119-169): `'binary'`
combines the binary precision and recall (propagating their errors, in
particular the two-class requirement), `0.0` when their sum is zero;
`'macro'`/`'weighted'` average the per-class F1 scores as in
`calculate_precision`. -/
def calculate_f1 (cm : CMetrics) (average : String) : Except PyErr ℚ :=
  if average ∉ validAverages then .error .valueError
  else if average = "binary" then
    match calculate_precision cm "binary" with
    | .error e => .error e
    | .ok p =>
        match calculate_recall cm "binary" with
        | .error e => .error e
        | .ok r =>
            if p + r = 0 then .ok 0 else .ok (2 * (p * r) / (p + r))
  else
    let f1s := cm.classes.map (classF1 cm)
    if average = "macro" then
      if cm.classes.length = 0 then .error .zeroDivisionError
      else .ok (f1s.sum / cm.classes.length)
    else
      let weights := cm.classes.map (trueCount cm)
      let total := weights.sum
      if total ≠ 0 then
        .ok (((f1s.zip weights).map
          (fun fw => fw.1 * (fw.2 : ℚ))).sum / (total : ℚ))
      else .ok 0

/-- `calculate_accuracy()` (`compute_metrics.py` lines 171-181): matching
pairs over total, `0.0` on an empty input. -/
def calculate_accuracy (cm : CMetrics) : ℚ :=
  let correct := ((cm.y_true.zip cm.y_pred).filter
    (fun p => p.1 = p.2)).length
  let total := cm.y_true.length
  if total ≠ 0 then (correct : ℚ) / (total : ℚ) else 0

/-- The observed agreement `p_o` of `calculate_kappa`
(`compute_metrics.py` lines 194-196). -/
def observedAgreement (cm : CMetrics) : ℚ :=
  (((cm.y_true.zip cm.y_pred).filter
    (fun p => p.1 = p.2)).length : ℚ) / (cm.y_true.length : ℚ)

/-- The expected agreement `p_e` of `calculate_kappa`
(`compute_metrics.py` lines 198-204):
`Σ_cls true_count(cls) · pred_count(cls) / total²`. -/
def expectedAgreement (cm : CMetrics) : ℚ :=
  (cm.classes.map (fun cls =>
    ((cm.y_true.count cls : ℚ) * (cm.y_pred.count cls : ℚ)) /
      ((cm.y_true.length : ℚ) ^ 2))).sum

/-- `calculate_kappa()` (`compute_metrics.py` lines 183-210): `0.0` on an
empty input or when `1 - p_e = 0`, else `(p_o - p_e) / (1 - p_e)`. -/
def calculate_kappa (cm : CMetrics) : ℚ :=
  if cm.y_true.length = 0 then 0
  else
    let p_o := observedAgreement cm
    let p_e := expectedAgreement cm
    if 1 - p_e = 0 then 0
    else (p_o - p_e) / (1 - p_e)

/-- The `ComputeMetrics` object built from `y_true=[1,0,1,0]`,
`y_pred=[1,0,0,0]` — its observed classes are `[0, 1]`. -/
def cm5example : CMetrics := ⟨[1, 0, 1, 0], [1, 0, 0, 0], [0, 1]⟩

/-- Whether a row's label converts to `0` without error. -/
def isLabelZero (r : Row) : Bool :=
  match rowLabelInt r with
  | .ok n => n = 0
  | .error _ => false

/-- The rows of a dataset whose `label` converts to `0` — the selection the
bad-data-point comprehension of `aggregate_feedback` makes when every label
converts. -/
def labelZeroRows (data : List Row) : List Row :=
  data.filter isLabelZero

/-- Whether a row's label converts without error. -/
def labelOk (r : Row) : Bool :=
  match rowLabelInt r with
  | .ok _ => true
  | .error _ => false

/-- A three-row Auto-Judge dataset: two label-0 rows with feedback and one
label-1 row. -/
def c9exampleData : List Row :=
  [⟨some (.str "0"), some "f1", some "done", some "q1"⟩,
   ⟨some (.int 1), some "unused feedback", some "done", some "q2"⟩,
   ⟨some (.str "0"), some "f2", some "done", some "q3"⟩]

/- ------------------------------------------------------------------ -/
/-! # Theorems -/

/-! ## Helper lemmas about `sortedClasses` -/

theorem mem_insertSortedNoDup {x y : Int} {l : List Int} :
    y ∈ insertSortedNoDup x l ↔ y = x ∨ y ∈ l := by
  induction l with
  | nil => simp [insertSortedNoDup]
  | cons z zs ih =>
      rcases lt_trichotomy x z with h1 | h1 | h1
      · simp only [insertSortedNoDup, if_pos h1, List.mem_cons]
      · subst h1
        have hx : insertSortedNoDup x (x :: zs) = x :: zs := by
          simp [insertSortedNoDup]
        rw [hx, List.mem_cons]
        tauto
      · have hne : x ≠ z := by omega
        have hnlt : ¬ x < z := by omega
        simp only [insertSortedNoDup, if_neg hnlt, if_neg hne, List.mem_cons,
          ih]
        tauto

theorem mem_sortedClasses {y : Int} {l : List Int} :
    y ∈ sortedClasses l ↔ y ∈ l := by
  induction l with
  | nil => simp [sortedClasses]
  | cons x xs ih =>
      show y ∈ insertSortedNoDup x (sortedClasses xs) ↔ _
      rw [mem_insertSortedNoDup]
      simp [ih]

theorem pairwise_insertSortedNoDup {x : Int} {l : List Int}
    (h : l.Pairwise (· < ·)) :
    (insertSortedNoDup x l).Pairwise (· < ·) := by
  induction l with
  | nil => simp [insertSortedNoDup]
  | cons z zs ih =>
      rw [List.pairwise_cons] at h
      obtain ⟨hz, hzs⟩ := h
      rcases lt_trichotomy x z with h1 | h1 | h1
      · simp only [insertSortedNoDup, if_pos h1]
        refine List.Pairwise.cons ?_ (List.Pairwise.cons hz hzs)
        intro y hy
        rcases List.mem_cons.mp hy with rfl | hy
        · exact h1
        · exact lt_trans h1 (hz y hy)
      · subst h1
        have hx : insertSortedNoDup x (x :: zs) = x :: zs := by
          simp [insertSortedNoDup]
        rw [hx]
        exact List.Pairwise.cons hz hzs
      · have hne : x ≠ z := by omega
        have hnlt : ¬ x < z := by omega
        simp only [insertSortedNoDup, if_neg hnlt, if_neg hne]
        refine List.Pairwise.cons ?_ (ih hzs)
        intro y hy
        rcases mem_insertSortedNoDup.mp hy with rfl | hy
        · exact h1
        · exact hz y hy

theorem pairwise_sortedClasses (l : List Int) :
    (sortedClasses l).Pairwise (· < ·) := by
  induction l with
  | nil => simp [sortedClasses]
  | cons x xs ih => exact pairwise_insertSortedNoDup ih

theorem nodup_sortedClasses (l : List Int) : (sortedClasses l).Nodup :=
  (pairwise_sortedClasses l).imp ne_of_lt

/-! ## C1 — Jury majority vote -/

/-- C1: the claim states that a `Jury` with voting method `"majority"` and
three judges whose judgments score `[True, True, False]` returns a
`Verdict` with `score == True` and the three judgments in judge order.  On
the source this is a code bug: `Jury.vote` calls
`self.voting_method(scores=scores)`, but `majority_voting(scores,
score_types)` has no default for `score_types`, so the call raises
`TypeError` and no `Verdict` is produced (the repository's own test
`test_jury_voting_majority` asserts the claimed behaviour).  The theorem
evaluates the code at the failing input: the judgments are collected in
judge order with scores `[True, True, False]`, the vote raises `TypeError`,
and `majority_voting` invoked with its required `score_types` argument
would indeed return `True`. -/
theorem c1_jury_majority_vote_raises_type_error :
    (([(fun _ => mkJudgment (.bool true) "first judge says correct"),
       (fun _ => mkJudgment (.bool true) "second judge says correct"),
       (fun _ => mkJudgment (.bool false) "third judge says incorrect")] :
        List JudgeFn).map
      (fun j => (j ⟨"What is the capital of France?", some "Paris", some "Paris"⟩).score)) =
      [.bool true, .bool true, .bool false]
    ∧ juryVoteMajority
        [(fun _ => mkJudgment (.bool true) "first judge says correct"),
         (fun _ => mkJudgment (.bool true) "second judge says correct"),
         (fun _ => mkJudgment (.bool false) "third judge says incorrect")]
        ⟨"What is the capital of France?", some "Paris", some "Paris"⟩ =
        .error .typeError
    ∧ call_majority_voting [.bool true, .bool true, .bool false]
        (some ["boolean", "boolean", "boolean"]) = .ok (.bool true) := by
  refine ⟨by rfl, by rfl, ?_⟩
  norm_num [call_majority_voting, majority_voting, normalizeAll,
    normalize_score, pyFloat, pyMode, firstOccs, listAvgOrZero,
    List.count_cons, List.count_nil]

/-! ## C2 — Auto-Judge rubric evaluation -/

/-- C2: the claim states that a row with an empty completion is classified
`0` without an LLM call, a failing per-row LLM call degrades the row to
classification `0` with a placeholder explanation, and otherwise a row is
classified `1` exactly when the returned score is truthy.  On the source
this is a code bug: `core.py` constructs
`GradingNote(Classification=..., Explanation=...)` and reads the
`Classification` attribute, but the `GradingNote` model it imports
(`llm_engine.py` lines 25-27) declares the fields `SCORE`/`REASONING` — so
both fallback constructions raise a pydantic `ValidationError` (aborting
the batch instead of degrading the row), and `extract_classifications`
reads a nonexistent attribute whose `getattr` default `False` classifies
every successfully graded row as `0`, regardless of its score. -/
theorem c2_grading_note_field_mismatch :
    (∀ llm : Row → Except PyErr GradingNote,
      process_single_response llm ⟨some (.str "1"), none, some "", some "q"⟩ =
        .error .validationError)
    ∧ process_single_response (fun _ => .error .runtimeError)
        ⟨some (.str "1"), none, some "some completion", some "q"⟩ =
        .error .validationError
    ∧ (∀ g : GradingNote, classificationOf g = 0)
    ∧ classificationOf ⟨true, "meets every rubric item"⟩ = 0 :=
  ⟨fun _ => rfl, rfl, fun _ => rfl, rfl⟩

/-! ## C3 — configure_client -/

/-- C3 counterexample: the claim states that a `configure_client` call
providing only `api_key` leaves the previously configured `client` field
untouched.  It does not: the `client` parameter defaults to `"litellm"`,
which is not `None`, so the call `configure_client(api_key="sk-test")`
against a configuration whose client is `"openai"` resets the client to
`"litellm"`. -/
theorem c3_configure_client_counterexample :
    (configure_client_default_client (some "sk-test") none
        ⟨"openai", none, none⟩).client = "litellm"
    ∧ (configure_client_default_client (some "sk-test") none
        ⟨"openai", none, none⟩).client ≠ "openai" := by
  constructor
  · rfl
  · decide

/-- C3 (amended): `configure_client` overwrites exactly the fields whose
bound argument is non-null and returns the updated configuration (which is
the same singleton `get_config()` subsequently returns).  Because the
`client` parameter defaults to `"litellm"`, a call omitting `client`
overwrites the client field with `"litellm"`; only an explicit
`client=None` leaves it unchanged.  `api_key` and `base_url` default to
`None` and are therefore left unchanged exactly when omitted. -/
theorem c3_configure_client_amended :
    ∀ (cfg : ClientConfig) (client api_key base_url : Option String),
      configure_client client api_key base_url cfg =
        { client := client.getD cfg.client,
          api_key := match api_key with
            | some k => some k
            | none => cfg.api_key,
          base_url := match base_url with
            | some u => some u
            | none => cfg.base_url }
      ∧ configure_client_default_client api_key base_url cfg =
          configure_client (some "litellm") api_key base_url cfg := by
  intro cfg client api_key base_url
  refine ⟨?_, rfl⟩
  cases client <;> cases api_key <;> cases base_url <;> rfl

/-! ## C4 — Judgment string score normalization -/

/-- C4: constructing a `Judgment` with a string score that is a letter-case
variant of `"yes"`, `"true"`, `"1"` or `"good"` (i.e. whose lowercase form
is in that vocabulary) stores the score `True`; a case variant of `"no"`,
`"false"`, `"0"` or `"bad"` stores `False`; any other string is stored
unchanged. -/
theorem c4_judgment_string_score_normalization :
    ∀ (s reasoning : String),
      (pyLower s ∈ trueStrings →
        mkJudgment (.str s) reasoning = ⟨.bool true, reasoning⟩)
      ∧ (pyLower s ∈ falseStrings →
        mkJudgment (.str s) reasoning = ⟨.bool false, reasoning⟩)
      ∧ (pyLower s ∉ trueStrings → pyLower s ∉ falseStrings →
        mkJudgment (.str s) reasoning = ⟨.str s, reasoning⟩) := by
  intro s r
  refine ⟨fun h => ?_, fun h => ?_, fun h1 h2 => ?_⟩
  · simp [mkJudgment, postInitScore, h]
  · have hnt : pyLower s ∉ trueStrings := by
      intro ht
      generalize hq : pyLower s = t at h ht
      fin_cases h <;> exact absurd ht (by decide)
    simp [mkJudgment, postInitScore, hnt, h]
  · simp [mkJudgment, postInitScore, h1, h2]

/-- C4 witness: the normalization at `"YES"`, `"False"` and `"Partly"`. -/
theorem c4_judgment_string_score_normalization_witness :
    (pyLower "YES" ∈ trueStrings ∧
      mkJudgment (.str "YES") "r" = ⟨.bool true, "r"⟩)
    ∧ (pyLower "False" ∈ falseStrings ∧
      mkJudgment (.str "False") "r" = ⟨.bool false, "r"⟩)
    ∧ (pyLower "Partly" ∉ trueStrings ∧ pyLower "Partly" ∉ falseStrings ∧
      mkJudgment (.str "Partly") "r" = ⟨.str "Partly", "r"⟩) :=
  ⟨⟨by decide, (c4_judgment_string_score_normalization "YES" "r").1 (by decide)⟩,
   ⟨by decide, (c4_judgment_string_score_normalization "False" "r").2.1 (by decide)⟩,
   ⟨by decide, by decide,
    (c4_judgment_string_score_normalization "Partly" "r").2.2
      (by decide) (by decide)⟩⟩

/-! ## C5 — ComputeMetrics on y_true=[1,0,1,0], y_pred=[1,0,0,0] -/

/-- C5: for `y_true=[1,0,1,0]` and `y_pred=[1,0,0,0]`, `ComputeMetrics`
yields accuracy `3/4`, binary precision (positive class `1`) `1`, binary
recall `1/2`, binary F1 `2/3`, and Cohen's kappa `1/2`, with observed
agreement `p_o = 3/4` and expected agreement `p_e = 1/2`. -/
theorem c5_compute_metrics_worked_example :
    mkComputeMetrics [1, 0, 1, 0] [1, 0, 0, 0] = .ok cm5example
    ∧ calculate_accuracy cm5example = 3/4
    ∧ calculate_precision cm5example "binary" = .ok 1
    ∧ calculate_recall cm5example "binary" = .ok (1/2)
    ∧ calculate_f1 cm5example "binary" = .ok (2/3)
    ∧ observedAgreement cm5example = 3/4
    ∧ expectedAgreement cm5example = 1/2
    ∧ calculate_kappa cm5example = 1/2 := by
  refine ⟨by rfl, ?_, ?_, ?_, ?_, ?_, ?_, ?_⟩
  · norm_num [calculate_accuracy, cm5example]
  · norm_num [calculate_precision, cm5example, validAverages, classPrecision,
      confusion, List.count_cons, List.count_nil, Prod.ext_iff]
  · norm_num [calculate_recall, cm5example, validAverages, classRecall,
      confusion, List.count_cons, List.count_nil, Prod.ext_iff]
  · norm_num [calculate_f1, calculate_precision, calculate_recall, cm5example,
      validAverages, classPrecision, classRecall, confusion, List.count_cons,
      List.count_nil, Prod.ext_iff]
  · norm_num [observedAgreement, cm5example]
  · norm_num [expectedAgreement, cm5example, List.count_cons, List.count_nil]
  · norm_num [calculate_kappa, observedAgreement, expectedAgreement,
      cm5example, List.count_cons, List.count_nil]

/-! ## C6 — ComputeMetrics input validation -/

/-- C6: `ComputeMetrics` construction raises `ValueError` exactly when the
two label sequences differ in length; a constructed instance's `classes`
list enumerates (without duplicates) exactly the labels observed in either
sequence; `calculate_precision`, `calculate_recall` and `calculate_f1`
raise `ValueError` for every averaging mode outside
`{"binary", "macro", "weighted"}`; and in `"binary"` mode they raise
`ValueError` whenever the number of observed classes is not exactly two. -/
theorem c6_compute_metrics_validation :
    (∀ y_true y_pred : List Int,
      mkComputeMetrics y_true y_pred = .error .valueError ↔
        y_true.length ≠ y_pred.length)
    ∧ (∀ (y_true y_pred : List Int) (cm : CMetrics),
        mkComputeMetrics y_true y_pred = .ok cm →
          cm.classes.Nodup ∧ ∀ x : Int, x ∈ cm.classes ↔ x ∈ y_true ∨ x ∈ y_pred)
    ∧ (∀ (cm : CMetrics) (average : String), average ∉ validAverages →
        calculate_precision cm average = .error .valueError
        ∧ calculate_recall cm average = .error .valueError
        ∧ calculate_f1 cm average = .error .valueError)
    ∧ (∀ cm : CMetrics, cm.classes.length ≠ 2 →
        calculate_precision cm "binary" = .error .valueError
        ∧ calculate_recall cm "binary" = .error .valueError
        ∧ calculate_f1 cm "binary" = .error .valueError) := by
  refine ⟨?_, ?_, ?_, ?_⟩
  · intro y_true y_pred
    by_cases h : y_true.length ≠ y_pred.length <;>
      simp [mkComputeMetrics, h]
  · intro y_true y_pred cm hmk
    rw [mkComputeMetrics] at hmk
    split at hmk
    · exact absurd hmk (by simp)
    · simp only [Except.ok.injEq] at hmk
      subst hmk
      exact ⟨nodup_sortedClasses _,
        fun x => by rw [mem_sortedClasses, List.mem_append]⟩
  · intro cm average h
    refine ⟨?_, ?_, ?_⟩ <;>
      simp [calculate_precision, calculate_recall, calculate_f1, h]
  · intro cm h2
    rcases hcl : cm.classes with _ | ⟨a, _ | ⟨b, _ | ⟨c, tl⟩⟩⟩
    · refine ⟨?_, ?_, ?_⟩ <;>
        simp [calculate_precision, calculate_recall, calculate_f1,
          validAverages, hcl]
    · refine ⟨?_, ?_, ?_⟩ <;>
        simp [calculate_precision, calculate_recall, calculate_f1,
          validAverages, hcl]
    · exact absurd (by rw [hcl]; rfl) h2
    · refine ⟨?_, ?_, ?_⟩ <;>
        simp [calculate_precision, calculate_recall, calculate_f1,
          validAverages, hcl]

/-- C6 witness: mismatched lengths `[1]` vs `[]` are rejected; the
averaging mode `"micro"` is rejected; `"binary"` metrics on a one-class
instance are rejected. -/
theorem c6_compute_metrics_validation_witness :
    (([1] : List Int).length ≠ ([] : List Int).length ∧
      mkComputeMetrics [1] [] = .error .valueError)
    ∧ ("micro" ∉ validAverages ∧
      calculate_precision cm5example "micro" = .error .valueError)
    ∧ ((⟨[0], [0], [0]⟩ : CMetrics).classes.length ≠ 2 ∧
      calculate_f1 ⟨[0], [0], [0]⟩ "binary" = .error .valueError) :=
  ⟨⟨by decide, (c6_compute_metrics_validation.1 [1] []).mpr (by decide)⟩,
   ⟨by decide,
    (c6_compute_metrics_validation.2.2.1 cm5example "micro" (by decide)).1⟩,
   ⟨by decide,
    (c6_compute_metrics_validation.2.2.2 ⟨[0], [0], [0]⟩ (by decide)).2.2⟩⟩

/-! ## C7 — Gateway retry policy -/

theorem retryRun_ok {E A : Type} (f : Nat → Except E A) (r k : Nat) (a : A)
    (h : f k = .ok a) : retryRun f r k = .ok a := by
  cases r <;> simp [retryRun, h]

theorem retryRun_last {E A : Type} (f : Nat → Except E A) (k : Nat) (e : E)
    (h : f k = .error e) : retryRun f 1 k = .error e := by
  simp [retryRun, h]

theorem retryRun_step {E A : Type} (f : Nat → Except E A) (r k : Nat) (e : E)
    (h : f k = .error e) (hr : r ≠ 0) :
    retryRun f (r + 1) k = retryRun f r (k + 1) := by
  simp [retryRun, h, hr]

theorem retryRun_congr {E A : Type} (f g : Nat → Except E A) :
    ∀ (r k : Nat), r ≠ 0 → (∀ i, k ≤ i → i < k + r → f i = g i) →
      retryRun f r k = retryRun g r k := by
  intro r
  induction r with
  | zero => intro k hr _; exact absurd rfl hr
  | succ r ih =>
      intro k _ h
      simp only [retryRun]
      rw [h k le_rfl (by omega)]
      cases hg : g k with
      | ok a => rfl
      | error e =>
          by_cases hr0 : r = 0
          · simp [hr0]
          · simp only [if_neg hr0]
            exact ih (k + 1) hr0 (fun i h1 h2 => h i (by omega) (by omega))

/-- C7: `get_completion` is wrapped in tenacity retry with randomized
exponential backoff between 1 and 60 seconds and a ceiling of 5 attempts;
a call that fails on attempts 1-4 and succeeds on attempt 5 returns the
successful result; a call that fails on all 5 attempts propagates the 5th
(final) failure; and the outcome depends only on attempts 1 through 5 — no
6th attempt is ever consulted. -/
theorem c7_get_completion_retry_policy :
    getCompletionRetryPolicy = ⟨1, 60, 5⟩
    ∧ (∀ (E A : Type) (f : Nat → Except E A) (a : A),
        (∀ i, 1 ≤ i → i ≤ 4 → ∃ e, f i = .error e) → f 5 = .ok a →
          getCompletionAttempts f = .ok a)
    ∧ (∀ (E A : Type) (f : Nat → Except E A) (e : Nat → E),
        (∀ i, 1 ≤ i → i ≤ 5 → f i = .error (e i)) →
          getCompletionAttempts f = .error (e 5))
    ∧ (∀ (E A : Type) (f g : Nat → Except E A),
        (∀ i, 1 ≤ i → i ≤ 5 → f i = g i) →
          getCompletionAttempts f = getCompletionAttempts g) := by
  refine ⟨rfl, ?_, ?_, ?_⟩
  · intro E A f a h4 h5
    obtain ⟨e1, he1⟩ := h4 1 (by omega) (by omega)
    obtain ⟨e2, he2⟩ := h4 2 (by omega) (by omega)
    obtain ⟨e3, he3⟩ := h4 3 (by omega) (by omega)
    obtain ⟨e4, he4⟩ := h4 4 (by omega) (by omega)
    show retryRun f (4 + 1) 1 = .ok a
    rw [retryRun_step f 4 1 e1 he1 (by omega)]
    show retryRun f (3 + 1) 2 = .ok a
    rw [retryRun_step f 3 2 e2 he2 (by omega)]
    show retryRun f (2 + 1) 3 = .ok a
    rw [retryRun_step f 2 3 e3 he3 (by omega)]
    show retryRun f (1 + 1) 4 = .ok a
    rw [retryRun_step f 1 4 e4 he4 (by omega)]
    exact retryRun_ok f 1 5 a h5
  · intro E A f e h
    show retryRun f (4 + 1) 1 = .error (e 5)
    rw [retryRun_step f 4 1 (e 1) (h 1 (by omega) (by omega)) (by omega)]
    show retryRun f (3 + 1) 2 = .error (e 5)
    rw [retryRun_step f 3 2 (e 2) (h 2 (by omega) (by omega)) (by omega)]
    show retryRun f (2 + 1) 3 = .error (e 5)
    rw [retryRun_step f 2 3 (e 3) (h 3 (by omega) (by omega)) (by omega)]
    show retryRun f (1 + 1) 4 = .error (e 5)
    rw [retryRun_step f 1 4 (e 4) (h 4 (by omega) (by omega)) (by omega)]
    exact retryRun_last f 5 (e 5) (h 5 (by omega) (by omega))
  · intro E A f g h
    exact retryRun_congr f g 5 1 (by omega)
      (fun i h1 h2 => h i h1 (by omega))

/-- C7 witness: the retry behaviour at a call failing on attempts 1-4 and
succeeding on attempt 5, at a call failing on every attempt, and at two
calls that agree on attempts 1-5. -/
theorem c7_get_completion_retry_policy_witness :
    ((∀ i, 1 ≤ i → i ≤ 4 →
        ∃ e, (fun j => if j < 5 then (.error j : Except Nat String)
          else .ok "done") i = .error e)
      ∧ (fun j => if j < 5 then (.error j : Except Nat String)
          else .ok "done") 5 = .ok "done"
      ∧ getCompletionAttempts
          (fun j => if j < 5 then (.error j : Except Nat String)
            else .ok "done") = .ok "done")
    ∧ ((∀ i, 1 ≤ i → i ≤ 5 →
        (fun j => (.error j : Except Nat String)) i = .error i)
      ∧ getCompletionAttempts (fun j => (.error j : Except Nat String)) =
          .error 5)
    ∧ ((∀ i, 1 ≤ i → i ≤ 5 →
        (fun j => (.error j : Except Nat String)) i =
          (fun j => if j ≤ 5 then (.error j : Except Nat String)
            else .ok "later") i)
      ∧ getCompletionAttempts (fun j => (.error j : Except Nat String)) =
          getCompletionAttempts
            (fun j => if j ≤ 5 then (.error j : Except Nat String)
              else .ok "later")) :=
  ⟨⟨fun i h1 h2 => ⟨i, by simp [show i < 5 by omega]⟩, rfl,
    c7_get_completion_retry_policy.2.1 Nat String
      (fun j => if j < 5 then .error j else .ok "done") "done"
      (fun i h1 h2 => ⟨i, by simp [show i < 5 by omega]⟩) rfl⟩,
   ⟨fun i _ _ => rfl,
    c7_get_completion_retry_policy.2.2.1 Nat String
      (fun j => .error j) (fun j => j) (fun i _ _ => rfl)⟩,
   ⟨fun i h1 h2 => by simp [show i ≤ 5 from h2],
    c7_get_completion_retry_policy.2.2.2 Nat String
      (fun j => .error j)
      (fun j => if j ≤ 5 then .error j else .ok "later")
      (fun i h1 h2 => by simp [show i ≤ 5 from h2])⟩⟩

/-! ## C8 — _build_messages -/

/-- C8 counterexample: the claim states that with a system prompt the
message list has exactly two entries, system first.  The empty string is a
system prompt for which this fails: `if system_prompt:` treats `""` as
falsy, so only the user message is produced. -/
theorem c8_build_messages_counterexample :
    (buildMessages "Is the answer correct?" (some "")).length = 1 ∧
      (1 : Nat) ≠ 2 :=
  ⟨rfl, by decide⟩

/-- C8 (amended): with no system prompt — or an empty one, which the
`if system_prompt:` truthiness test treats the same way — `_build_messages`
returns exactly one message of role `"user"` whose content is the user
prompt with the fixed JSON-format instruction appended; with a non-empty
system prompt it returns exactly two messages, the system message first and
the same user message second. -/
theorem c8_build_messages_amended :
    ∀ user_prompt : String,
      buildMessages user_prompt none =
        [⟨"user", user_prompt ++ jsonFormatInstruction⟩]
      ∧ buildMessages user_prompt (some "") =
          [⟨"user", user_prompt ++ jsonFormatInstruction⟩]
      ∧ ∀ system_prompt : String, system_prompt ≠ "" →
          buildMessages user_prompt (some system_prompt) =
            [⟨"system", system_prompt⟩,
             ⟨"user", user_prompt ++ jsonFormatInstruction⟩] := by
  intro up
  refine ⟨rfl, rfl, fun sp h => ?_⟩
  simp [buildMessages, strTruthy, h]

/-- C8 witness: the two-message shape at a concrete non-empty system
prompt. -/
theorem c8_build_messages_amended_witness :
    ("You are a grader." ≠ "" ∧
      buildMessages "Check this." (some "You are a grader.") =
        [⟨"system", "You are a grader."⟩,
         ⟨"user", "Check this." ++ jsonFormatInstruction⟩]) :=
  ⟨by decide,
   (c8_build_messages_amended "Check this.").2.2 "You are a grader."
     (by decide)⟩

/-! ## C9 — Auto-Judge feedback aggregation -/

theorem badDataPoints_ok (data : List Row)
    (h : ∀ r ∈ data, labelOk r = true) :
    badDataPoints data = .ok (labelZeroRows data) := by
  induction data with
  | nil => rfl
  | cons r rs ih =>
      have hr := h r (List.mem_cons_self r rs)
      cases hrl : rowLabelInt r with
      | error e => simp [labelOk, hrl] at hr
      | ok n =>
          simp only [badDataPoints, hrl]
          rw [ih (fun x hx => h x (List.mem_cons_of_mem _ hx))]
          by_cases hn : n = 0 <;>
            simp [labelZeroRows, List.filter_cons, isLabelZero, hrl, hn]

theorem dash_prefix_ne_empty (x : String) : " - " ++ x ≠ "" := by
  intro h
  have hlen := congrArg String.length h
  rw [String.length_append, show (" - ").length = 3 from rfl,
    show ("" : String).length = 0 from rfl] at hlen
  omega

/-- C9 counterexample: the claim states that whenever no row has both a
label normalizing to `"0"` and non-empty feedback — including when label-0
rows exist but all have empty feedback — the aggregated result is empty and
the pipeline stops without an LLM call.  On a dataset whose single row has
label `"0"` and empty feedback, `aggregate_feedback` returns the bare
bullet prefix `" - "` (the `if not bad_data_points` guard only checks for
label-0 rows, not for usable feedback), which is truthy, so `run_pipeline`
proceeds to its first LLM call instead of stopping. -/
theorem c9_empty_feedback_counterexample :
    aggregate_feedback [⟨some (.str "0"), some "", some "done", some "q"⟩] =
      .ok " - "
    ∧ (" - " : String) ≠ ""
    ∧ runPipelineIssuesLLMCall
        [⟨some (.str "0"), some "", some "done", some "q"⟩] = .ok true :=
  ⟨rfl, by decide, rfl⟩

/-- C9 (amended): when every label converts, `aggregate_feedback` joins the
feedback of exactly those label-0 rows whose feedback is non-empty into
`" - f1\n - f2"`, excluding label-1 rows and empty feedback; the result is
the empty string — and `run_pipeline` stops before its first LLM call —
exactly when no label-0 row exists at all.  When label-0 rows exist but all
have empty feedback, the result is the non-empty string `" - "` and the
pipeline proceeds. -/
theorem c9_aggregate_feedback_amended :
    ∀ data : List Row, (∀ r ∈ data, labelOk r = true) →
      aggregate_feedback data =
        .ok (if (labelZeroRows data).isEmpty then ""
          else " - " ++ String.intercalate "\n - "
            (((labelZeroRows data).filter rowFeedbackTruthy).filterMap
              (fun r => r.feedback)))
      ∧ (data ≠ [] →
          runPipelineIssuesLLMCall data =
            .ok (!(labelZeroRows data).isEmpty)) := by
  intro data h
  have hbad := badDataPoints_ok data h
  have hagg : aggregate_feedback data =
      .ok (if (labelZeroRows data).isEmpty then ""
        else " - " ++ String.intercalate "\n - "
          (((labelZeroRows data).filter rowFeedbackTruthy).filterMap
            (fun r => r.feedback))) := by
    simp only [aggregate_feedback, hbad]
    by_cases he : (labelZeroRows data).isEmpty <;> simp [he]
  refine ⟨hagg, fun hne => ?_⟩
  rcases data with _ | ⟨r, rs⟩
  · exact absurd rfl hne
  · simp only [runPipelineIssuesLLMCall, List.isEmpty_cons, hagg]
    by_cases he : (labelZeroRows (r :: rs)).isEmpty
    · simp [he]
    · simp [he, dash_prefix_ne_empty]

/-- C9 witness: the amended aggregation at a three-row dataset with two
label-0 rows carrying feedback `"f1"`, `"f2"` and one label-1 row. -/
theorem c9_aggregate_feedback_amended_witness :
    (∀ r ∈ c9exampleData, labelOk r = true)
    ∧ c9exampleData ≠ []
    ∧ aggregate_feedback c9exampleData = .ok (" - f1" ++ "\n - f2")
    ∧ runPipelineIssuesLLMCall c9exampleData = .ok true := by
  have h := c9_aggregate_feedback_amended c9exampleData (by decide)
  exact ⟨by decide, by decide, h.1, h.2 (by decide)⟩

/-! ## C10 — integer scores are coerced to booleans -/

/-- C10: constructing a `Judgment` with an integer score stores
`bool(score)` — `0` becomes `False` and every non-zero integer becomes
`True` — so an ordinal integer score never survives construction unchanged;
in particular a relevance or Prometheus score of `2` is stored as `True`. -/
theorem c10_integer_scores_become_bool :
    ∀ (n : Int) (reasoning : String),
      mkJudgment (.int n) reasoning = ⟨.bool (decide (n ≠ 0)), reasoning⟩
      ∧ (mkJudgment (.int n) reasoning).score ≠ .int n
      ∧ mkJudgment (.int 0) reasoning = ⟨.bool false, reasoning⟩
      ∧ mkJudgment (.int 2) reasoning = ⟨.bool true, reasoning⟩ := by
  intro n r
  refine ⟨rfl, ?_, rfl, rfl⟩
  simp [mkJudgment, postInitScore]

end Judges
